import Mathlib

/-!
vtkBezierSurfaceWidget: the handle-drag controller.

A shallow embedding of `src/Application/BoolOperation/vtkBezierSurfaceWidget.cpp`.

* Pointers are `Option` values (`none` is the null pointer); the identity of a
  `vtkActor` is a natural number handed out by an allocation counter, the
  identity of a surface source is its `addr` field.
* Every member function is a function `vtkBezierSurfaceWidget → Option vtkBezierSurfaceWidget`:
  `none` means the C++ code has no defined behaviour there (a null pointer is
  dereferenced, a vector is indexed out of range, a signed product overflows,
  an unset local is read).
* `double` coordinates are exact rationals.
* Reference counting, the wire-frame actor's mapper, the renderer's actor list,
  `Render()` calls, abort flags, emitted notification events and the STL export
  at the end of `OnLeftButtonUp` are not tracked: no statement below reads them.
-/

namespace BezierWidget

/-- A `double[3]`, with exact components. -/
abbrev Vec3 := ℚ × ℚ × ℚ

/-- The largest value of a C++ `int`. -/
def INT_MAX : Nat := 2147483647

/-- Modelled from the spec: the control-point grid source (`vtkBezierSurfaceSource`,
whose implementation is not among the sources). "A 2D grid (rows × columns) of 3D
points ... read through get point at (row, col) and get grid dimensions".
`addr` is the address of the object: two pointers are equal iff the addresses are. -/
structure vtkBezierSurfaceSource where
  addr : Nat
  NumberOfControlPoints : Nat × Nat
  ControlPoints : Int → Int → Vec3

namespace vtkBezierSurfaceSource

/-- Modelled from the spec: `GetNumberOfControlPoints()`, "get grid dimensions". -/
def GetNumberOfControlPoints (s : vtkBezierSurfaceSource) : Nat × Nat :=
  s.NumberOfControlPoints

/-- Modelled from the spec: `GetControlPoint(i, j)`, "get point at (row, col)". -/
def GetControlPoint (s : vtkBezierSurfaceSource) (i j : Int) : Vec3 :=
  s.ControlPoints i j

/-- Modelled from the spec: `SetControlPoint(i, j, p)`, the explicit "set point at
(row, col)" operation: the point at `(i, j)` becomes `p`, every other point is kept. -/
def SetControlPoint (s : vtkBezierSurfaceSource) (i j : Int) (p : Vec3) :
    vtkBezierSurfaceSource :=
  { s with ControlPoints := fun a b => if a = i ∧ b = j then p else s.ControlPoints a b }

end vtkBezierSurfaceSource

/-- The `vtkProperty*` held by a handle's actor. The widget's own `Property`
object is created in the constructor and is the one shared plain style;
`SelectHandle` gives the actor a private deep copy of it with colour (1, 0, 0). -/
inductive PropertyRef where
  /-- the actor's property was never set -/
  | unset
  /-- `this->Property`, the shared plain style -/
  | shared
  /-- a fresh copy of `this->Property` with `SetColor(1.0, 0.0, 0.0)` -/
  | redCopy
  deriving DecidableEq, Repr

/-- `struct HandleInfo`: the sphere source (centre and radius), the actor
(identity, visibility and property) and the control point indexes. -/
structure HandleInfo where
  Actor : Nat
  Center : Vec3
  Radius : ℚ
  Visibility : Int
  Property : PropertyRef
  xCPIndex : Int
  yCPIndex : Int
  deriving DecidableEq

namespace HandleInfo

/-- `new HandleInfo` followed by `Init()`: a sphere at the origin (the toolkit's
default radius is 0.5), a new visible actor `actor`, indexes -1. -/
def Init (actor : Nat) : HandleInfo :=
  { Actor := actor, Center := (0, 0, 0), Radius := 1 / 2, Visibility := 1,
    Property := PropertyRef.unset, xCPIndex := -1, yCPIndex := -1 }

def SetRadius (h : HandleInfo) (r : ℚ) : HandleInfo := { h with Radius := r }

def SetPosition (h : HandleInfo) (pt : Vec3) : HandleInfo := { h with Center := pt }

def GetPosition (h : HandleInfo) : Vec3 := h.Center

def SetVisibility (h : HandleInfo) (val : Int) : HandleInfo := { h with Visibility := val }

def SetProperty (h : HandleInfo) (prop : PropertyRef) : HandleInfo := { h with Property := prop }

end HandleInfo

/-- The event identifiers `ProcessEvents` is called with; `OtherEvent` stands
for every identifier that falls to the `default:` branch. -/
inductive vtkCommand where
  | MouseMoveEvent
  | LeftButtonPressEvent
  | LeftButtonReleaseEvent
  | OtherEvent
  deriving DecidableEq, Repr

/-- The part of the `vtkRenderWindowInteractor` the widget uses: the position of
the current and of the previous event, the renderer found under a display
position, and the events on which the widget's `EventCallbackCommand` has been
added as an observer (one entry per `AddObserver` call). -/
structure vtkRenderWindowInteractor where
  EventPosition : Int × Int
  LastEventPosition : Int × Int
  FindPokedRenderer : Int → Int → Option Nat
  Observers : List vtkCommand

/-- What `Picker->Pick(x, y, 0, ren)` answers for one pointer-down: the picked
actor (`GetActor()`, null when nothing is hit) and `GetPickPosition()`. -/
structure PickResult where
  Actor : Option Nat
  PickPosition : Vec3

/-- The widget together with the collaborators it owns or points to. -/
structure vtkBezierSurfaceWidget where
  Source : Option vtkBezierSurfaceSource
  CPGridActor : Option Nat
  CurrHandleIndex : Int
  HandleInfoList : List HandleInfo
  LastPickPosition : Vec3
  /-- `vtkInteractorObserver::Enabled` -/
  Enabled : Int
  /-- `vtkInteractorObserver::Interactor` -/
  Interactor : Option vtkRenderWindowInteractor
  /-- `vtkInteractorObserver::CurrentRenderer` -/
  CurrentRenderer : Option Nat
  /-- `vtkInteractorObserver::DefaultRenderer` -/
  DefaultRenderer : Option Nat
  /-- the pick list of `this->Picker` -/
  PickList : List Nat
  /-- the `PickFromList` flag of `this->Picker` -/
  PickFromList : Bool
  /-- `vtkInteractorObserver::ComputeWorldToDisplay` for the current renderer -/
  WorldToDisplay : Vec3 → Vec3
  /-- `vtkInteractorObserver::ComputeDisplayToWorld` for the current renderer -/
  DisplayToWorld : ℚ → ℚ → ℚ → Vec3
  /-- the next actor identity `vtkActor::New()` returns -/
  NextActor : Nat

/-- A `for (int i = 0; i < n; i++)` loop over a state, stopping at the first
step without defined behaviour. -/
def forLoop {σ : Type} (n : Nat) (body : Nat → σ → Option σ) (s : σ) : Option σ :=
  match n with
  | 0 => some s
  | k + 1 => (forLoop k body s).bind (body k)

/-- `std::vector::resize(n, v)`. -/
def resize {α : Type} (l : List α) (n : Nat) (v : α) : List α :=
  l.take n ++ List.replicate (n - l.length) v

/-- The loop of `OnLeftButtonDown`: the first index `i` (counted from `i`) with
`pickedActor == HandleInfoList[i]->Actor`. -/
def findPicked (pickedActor : Nat) : List HandleInfo → Nat → Option Nat
  | [], _ => none
  | info :: rest, i => if pickedActor = info.Actor then some i else findPicked pickedActor rest (i + 1)

namespace vtkBezierSurfaceWidget

/-- The state the constructor leaves, for given coordinate conversions. -/
def New (w2d : Vec3 → Vec3) (d2w : ℚ → ℚ → ℚ → Vec3) : vtkBezierSurfaceWidget :=
  { Source := none, CPGridActor := none, CurrHandleIndex := -1, HandleInfoList := [],
    LastPickPosition := (0, 0, 0), Enabled := 0, Interactor := none,
    CurrentRenderer := none, DefaultRenderer := none, PickList := [],
    PickFromList := false, WorldToDisplay := w2d, DisplayToWorld := d2w, NextActor := 0 }

/-- `GetRenderer()`: the default renderer, else the current renderer, else the
renderer poked at the interactor's last event position, which then becomes the
current renderer. -/
def GetRenderer (w : vtkBezierSurfaceWidget) : Option (vtkBezierSurfaceWidget × Option Nat) :=
  match w.DefaultRenderer with
  | some ren => some (w, some ren)
  | none =>
    match w.CurrentRenderer with
    | some ren => some (w, some ren)
    | none =>
      match w.Interactor with
      | none => none
      | some iren =>
        let ren := iren.FindPokedRenderer iren.LastEventPosition.1 iren.LastEventPosition.2
        some ({ w with CurrentRenderer := ren }, ren)

/-- `DestroyHandles()`. -/
def DestroyHandles (w : vtkBezierSurfaceWidget) : Option vtkBezierSurfaceWidget :=
  match GetRenderer w with
  | none => none
  | some (w1, _) => some { w1 with HandleInfoList := [] }

/-- `SizeHandles()`. -/
def SizeHandles (w : vtkBezierSurfaceWidget) : vtkBezierSurfaceWidget :=
  { w with HandleInfoList := w.HandleInfoList.map (fun info => info.SetRadius (1 / 10)) }

/-- The variables the loops of `ConstructHandles` change: `index`, the vector
(whose entries may still be null), the actor allocator and the pick list. -/
structure ConstructState where
  index : Nat
  slots : List (Option HandleInfo)
  NextActor : Nat
  PickList : List Nat

/-- The body of the inner loop of `ConstructHandles` for cell `(i, j)`. -/
def ConstructBody (src : vtkBezierSurfaceSource) (enabled : Int) (i j : Nat)
    (st : ConstructState) : Option ConstructState :=
  let pt := src.GetControlPoint i j
  let info := HandleInfo.Init st.NextActor
  let info := info.SetPosition pt
  let info := info.SetProperty PropertyRef.shared
  let info := info.SetVisibility enabled
  let info := { info with xCPIndex := i, yCPIndex := j }
  if st.index < st.slots.length then
    some { index := st.index + 1, slots := st.slots.set st.index (some info),
           NextActor := st.NextActor + 1, PickList := st.PickList ++ [info.Actor] }
  else none

/-- All entries of the vector, when none of them is null. -/
def allHandles : List (Option HandleInfo) → Option (List HandleInfo)
  | [] => some []
  | none :: _ => none
  | some info :: rest => (allHandles rest).map (fun l => info :: l)

/-- `ConstructHandles()`. -/
def ConstructHandles (w : vtkBezierSurfaceWidget) : Option vtkBezierSurfaceWidget :=
  match GetRenderer w with
  | none => none
  | some (w1, ren) =>
    match w1.Source, ren with
    | some src, some _ =>
      let vec := src.GetNumberOfControlPoints
      if INT_MAX < vec.1 * vec.2 then none
      else
        let nrControlPts := vec.1 * vec.2
        let st0 : ConstructState :=
          { index := 0, slots := resize (w1.HandleInfoList.map some) nrControlPts none,
            NextActor := w1.NextActor, PickList := w1.PickList }
        match forLoop vec.1 (fun i => forLoop vec.2 (ConstructBody src w1.Enabled i)) st0 with
        | none => none
        | some st =>
          match allHandles st.slots with
          | none => none
          | some handles =>
            some (SizeHandles { w1 with HandleInfoList := handles, NextActor := st.NextActor,
                                        PickList := st.PickList, PickFromList := true })
    | _, _ => some w1

/-- `SelectHandle(index)`. -/
def SelectHandle (index : Int) (w : vtkBezierSurfaceWidget) : vtkBezierSurfaceWidget :=
  if index < 0 ∨ index ≥ (w.HandleInfoList.length : Int) then w
  else
    { w with
      HandleInfoList := w.HandleInfoList.modify
        (fun info => info.SetProperty PropertyRef.redCopy) index.toNat
      CurrHandleIndex := index }

/-- `UnSelectCurrentHandle()`. -/
def UnSelectCurrentHandle (w : vtkBezierSurfaceWidget) : Option vtkBezierSurfaceWidget :=
  if w.CurrHandleIndex < 0 then some w
  else
    match w.HandleInfoList.get? w.CurrHandleIndex.toNat with
    | none => none
    | some _ =>
      some { w with
        HandleInfoList := w.HandleInfoList.modify
          (fun info => info.SetProperty PropertyRef.shared) w.CurrHandleIndex.toNat
        CurrHandleIndex := -1 }

/-- `SetEnabled(enabled)`. -/
def SetEnabled (enabled : Int) (w : vtkBezierSurfaceWidget) : Option vtkBezierSurfaceWidget :=
  if w.Enabled = enabled then some w
  else if enabled ≠ 0 ∧ ¬ (w.Interactor.isSome ∧ w.Source.isSome) then some w
  else
    let step1 : Option vtkBezierSurfaceWidget :=
      if enabled ≠ 0 then
        match ConstructHandles w with
        | none => none
        | some w1 =>
          match w1.Interactor with
          | none => none
          | some i =>
            let i := { i with Observers := i.Observers ++
              [vtkCommand.MouseMoveEvent, vtkCommand.LeftButtonPressEvent,
               vtkCommand.LeftButtonReleaseEvent] }
            let w2 := { w1 with Interactor := some i
                                HandleInfoList := w1.HandleInfoList.map
                                  (fun (info : HandleInfo) => info.SetVisibility 1) }
            match w2.CPGridActor with
            | none => some w2
            | some _ => (GetRenderer w2).map Prod.fst
      else some w
    match step1 with
    | none => none
    | some w3 =>
      let step2 : Option vtkBezierSurfaceWidget :=
        if enabled = 0 then
          let w4 := { w3 with HandleInfoList := w3.HandleInfoList.map
                                (fun (info : HandleInfo) => info.SetVisibility 0) }
          match w4.CPGridActor with
          | none => some w4
          | some _ => (GetRenderer w4).map Prod.fst
        else some w3
      match step2 with
      | none => none
      | some w5 =>
        match w5.Interactor with
        | none => none
        | some _ =>
          let w6 := { w5 with Enabled := enabled }
          if enabled ≠ 0 then some (SizeHandles w6) else some w6

/-- `SetSource(source)`. -/
def SetSource (source : Option vtkBezierSurfaceSource) (w : vtkBezierSurfaceWidget) :
    Option vtkBezierSurfaceWidget :=
  if w.Source.map (fun s => s.addr) = source.map (fun s => s.addr) then some w
  else
    let step1 : Option vtkBezierSurfaceWidget :=
      match w.Source with
      | none => some w
      | some _ =>
        match w.CPGridActor with
        | none => none
        | some _ => DestroyHandles { w with CPGridActor := none }
    match step1 with
    | none => none
    | some w1 =>
      let w2 := { w1 with Source := source }
      let w3 :=
        match w2.Source with
        | none => w2
        | some _ => { w2 with CPGridActor := some w2.NextActor, NextActor := w2.NextActor + 1 }
      if w3.Interactor.isSome ∧ w3.Source.isSome then SetEnabled 1 w3 else SetEnabled 0 w3

/-- `OnLeftButtonDown()`, for the answer `pick` of the pick service. -/
def OnLeftButtonDown (pick : PickResult) (w : vtkBezierSurfaceWidget) :
    Option vtkBezierSurfaceWidget :=
  let w := SizeHandles w
  match w.Interactor with
  | none => none
  | some _ =>
    match w.CurrentRenderer with
    | none => some w
    | some _ =>
      let w := { w with LastPickPosition := pick.PickPosition }
      match pick.Actor with
      | none => UnSelectCurrentHandle w
      | some pickedActor =>
        let w := { w with CurrHandleIndex := -1 }
        let w :=
          match findPicked pickedActor w.HandleInfoList 0 with
          | some i => SelectHandle i w
          | none => w
        -- `if (CurrHandleIndex < 0) return;` is followed only by the abort flag,
        -- the start-interaction notification and a render
        some w

/-- `OnMouseMove()`. -/
def OnMouseMove (w : vtkBezierSurfaceWidget) : Option vtkBezierSurfaceWidget :=
  let w := SizeHandles w
  if w.CurrHandleIndex < 0 then some w
  else
    match w.Interactor with
    | none => none
    | some iren =>
      let x := iren.EventPosition.1
      let y := iren.EventPosition.2
      match w.CurrentRenderer with
      | none => none
      | some _ =>
        let focalPoint := w.WorldToDisplay w.LastPickPosition
        let prevPickPoint := w.DisplayToWorld (iren.LastEventPosition.1 : ℚ)
          (iren.LastEventPosition.2 : ℚ) focalPoint.2.2
        let pickPoint := w.DisplayToWorld (x : ℚ) (y : ℚ) focalPoint.2.2
        match w.HandleInfoList.get? w.CurrHandleIndex.toNat with
        | none => none
        | some info =>
          let currPos := info.GetPosition
          let p : Vec3 :=
            (currPos.1 + (pickPoint.1 - prevPickPoint.1),
             currPos.2.1 + (pickPoint.2.1 - prevPickPoint.2.1),
             currPos.2.2 + (pickPoint.2.2 - prevPickPoint.2.2))
          some { w with HandleInfoList := w.HandleInfoList.modify
                          (fun h => h.SetPosition p) w.CurrHandleIndex.toNat }

/-- `OnLeftButtonUp()`. -/
def OnLeftButtonUp (w : vtkBezierSurfaceWidget) : Option vtkBezierSurfaceWidget :=
  let w := SizeHandles w
  if w.CurrHandleIndex < 0 then some w
  else
    match w.HandleInfoList.get? w.CurrHandleIndex.toNat with
    | none => none
    | some info =>
      let p := info.GetPosition
      match w.Source with
      | none => none
      | some src =>
        let w := { w with Source := some (src.SetControlPoint info.xCPIndex info.yCPIndex p) }
        match UnSelectCurrentHandle w with
        | none => none
        | some w =>
          match w.Interactor with
          | none => none
          | some _ => some w

/-- `ProcessEvents(_, event, self, _)`. -/
def ProcessEvents (event : vtkCommand) (pick : PickResult) (self : vtkBezierSurfaceWidget) :
    Option vtkBezierSurfaceWidget :=
  match event with
  | vtkCommand.LeftButtonPressEvent => OnLeftButtonDown pick self
  | vtkCommand.LeftButtonReleaseEvent => OnLeftButtonUp self
  | vtkCommand.MouseMoveEvent => OnMouseMove self
  | vtkCommand.OtherEvent => some self

/-- Whether `GetRenderer()` finds a renderer. -/
def hasRenderer (w : vtkBezierSurfaceWidget) : Bool :=
  match GetRenderer w with
  | some (_, some _) => true
  | _ => false

end vtkBezierSurfaceWidget

/-! ## Delivery of pointer events by the host -/

/-- One event as the interactor delivers it: the event identifier, the event
position and the previous event position the interactor reports, and what the
pick service answers at that position (consulted by pointer-down only). -/
structure PointerEvent where
  event : vtkCommand
  EventPosition : Int × Int
  LastEventPosition : Int × Int
  pick : PickResult

/-- The interactor records the positions of the event it is about to dispatch. -/
def SetEventInformation (e : PointerEvent) (w : vtkBezierSurfaceWidget) : vtkBezierSurfaceWidget :=
  { w with Interactor := w.Interactor.map (fun i =>
      { i with EventPosition := e.EventPosition, LastEventPosition := e.LastEventPosition }) }

/-- The interactor dispatches one event to the widget's callback. -/
def deliver (e : PointerEvent) (w : vtkBezierSurfaceWidget) : Option vtkBezierSurfaceWidget :=
  vtkBezierSurfaceWidget.ProcessEvents e.event e.pick (SetEventInformation e w)

/-- The events of a list are dispatched in order. -/
def run : List PointerEvent → vtkBezierSurfaceWidget → Option vtkBezierSurfaceWidget
  | [], w => some w
  | e :: es, w => (deliver e w).bind (run es)

/-- A pointer-down at `pos` for which the pick service answers `pick`. -/
def pointerDown (pos last : Int × Int) (pick : PickResult) : PointerEvent :=
  { event := vtkCommand.LeftButtonPressEvent, EventPosition := pos, LastEventPosition := last,
    pick := pick }

/-- A pointer-move to `m.1`, the previous event position being `m.2`. -/
def pointerMove (m : (Int × Int) × (Int × Int)) : PointerEvent :=
  { event := vtkCommand.MouseMoveEvent, EventPosition := m.1, LastEventPosition := m.2,
    pick := { Actor := none, PickPosition := (0, 0, 0) } }

/-- A pointer-up at `pos`. -/
def pointerUp (pos last : Int × Int) : PointerEvent :=
  { event := vtkCommand.LeftButtonReleaseEvent, EventPosition := pos, LastEventPosition := last,
    pick := { Actor := none, PickPosition := (0, 0, 0) } }

/-- The world-space delta of one pointer-move of a drag whose pointer-down
picked the world point `pickPos`: `worldPoint(now) - worldPoint(previousEvent)`,
both taken at the display depth of `pickPos`. -/
def moveDelta (w : vtkBezierSurfaceWidget) (pickPos : Vec3)
    (m : (Int × Int) × (Int × Int)) : Vec3 :=
  let depth := (w.WorldToDisplay pickPos).2.2
  w.DisplayToWorld (m.1.1 : ℚ) (m.1.2 : ℚ) depth - w.DisplayToWorld (m.2.1 : ℚ) (m.2.2 : ℚ) depth

/-- The handle `ConstructHandles` builds for the cell with row-major number `n`
of a grid with `cols` columns, `base` being the first free actor identity. -/
def constructedHandle (src : vtkBezierSurfaceSource) (enabled : Int) (cols base n : Nat) :
    HandleInfo :=
  { Actor := base + n, Center := src.GetControlPoint ((n / cols : Nat) : Int) ((n % cols : Nat) : Int),
    Radius := 1 / 2, Visibility := enabled, Property := PropertyRef.shared,
    xCPIndex := ((n / cols : Nat) : Int), yCPIndex := ((n % cols : Nat) : Int) }

/-- An interactor with no observers whose poked renderer is renderer 7. -/
def exampleInteractor : vtkRenderWindowInteractor :=
  { EventPosition := (0, 0), LastEventPosition := (0, 0),
    FindPokedRenderer := fun _ _ => some 7, Observers := [] }

/-- A newly constructed widget that has been given `exampleInteractor`; display
coordinates are world coordinates. -/
def exampleWidget : vtkBezierSurfaceWidget :=
  { vtkBezierSurfaceWidget.New (fun p => p) (fun x y z => (x, y, z)) with
    Interactor := some exampleInteractor }

/-- A grid with 2 rows and 3 columns whose point `(i, j)` is `(i, j, 0)`. -/
def grid23 : vtkBezierSurfaceSource :=
  { addr := 1, NumberOfControlPoints := (2, 3), ControlPoints := fun i j => ((i : ℚ), (j : ℚ), 0) }

/-- A grid with one cell, at `(5, 5, 5)`. -/
def grid11 : vtkBezierSurfaceSource :=
  { addr := 2, NumberOfControlPoints := (1, 1), ControlPoints := fun _ _ => (5, 5, 5) }

/-- A grid with no cell (0 rows, 4 columns). -/
def grid04 : vtkBezierSurfaceSource :=
  { addr := 3, NumberOfControlPoints := (0, 4), ControlPoints := fun _ _ => (0, 0, 0) }

/-- The widget after `SetSource(grid23)`: enabled, with six handles on actors 1..6. -/
def attached23 : Option vtkBezierSurfaceWidget :=
  vtkBezierSurfaceWidget.SetSource (some grid23) exampleWidget

/-- The state `attached23` holds. -/
def attachedWidget : vtkBezierSurfaceWidget := attached23.getD exampleWidget

/-- The interactor of `attachedWidget`: `exampleInteractor` observed on the three
pointer events. -/
def attachedInteractor : vtkRenderWindowInteractor :=
  { exampleInteractor with Observers :=
      [vtkCommand.MouseMoveEvent, vtkCommand.LeftButtonPressEvent,
       vtkCommand.LeftButtonReleaseEvent] }

/-- The handle of `attachedWidget` for cell `(0, 1)`, at list index 1. -/
def handle01 : HandleInfo :=
  { Actor := 2, Center := (0, 1, 0), Radius := 1 / 10, Visibility := 1,
    Property := PropertyRef.shared, xCPIndex := 0, yCPIndex := 1 }

/-- The example widget after `SetSource(grid11)`, `SetSource(grid23)` (while
enabled), `SetEnabled(0)` and `SetEnabled(1)`: the handle of `grid11` was on
actor 1, the six handles of `grid23` are on actors 3..8. -/
def reattached : Option vtkBezierSurfaceWidget :=
  (((vtkBezierSurfaceWidget.SetSource (some grid11) exampleWidget).bind
      (vtkBezierSurfaceWidget.SetSource (some grid23))).bind
      (vtkBezierSurfaceWidget.SetEnabled 0)).bind
      (vtkBezierSurfaceWidget.SetEnabled 1)

/-- A widget that was never given an interactor, after `SetSource(grid23)`: the
grid is attached, the widget is disabled and has no handle. -/
def unwiredWidget : vtkBezierSurfaceWidget :=
  ((vtkBezierSurfaceWidget.New (fun p => p) (fun x y z => (x, y, z))).SetSource
    (some grid23)).getD exampleWidget

/-- The attached example widget after a pointer-down at (1, 1) that picked
handle 1 (actor 2): handle 1 is the current handle. -/
def draggingWidget : vtkBezierSurfaceWidget :=
  (attached23.bind (deliver (pointerDown (1, 1) (0, 0)
    { Actor := some 2, PickPosition := (0, 1, 0) }))).getD exampleWidget

/-- The interactor of `draggingWidget`. -/
def draggingInteractor : vtkRenderWindowInteractor :=
  { attachedInteractor with EventPosition := (1, 1), LastEventPosition := (0, 0) }

/-- The handle 1 of `draggingWidget`. -/
def selectedHandle01 : HandleInfo :=
  { handle01 with Property := PropertyRef.redCopy }

/-- The attached example widget after a pointer-down that picked handle 1 and a
following `SetSource(grid11)`. -/
def reattachedInDrag : Option vtkBezierSurfaceWidget :=
  (attached23.bind (deliver (pointerDown (1, 1) (0, 0)
    { Actor := some 2, PickPosition := (0, 1, 0) }))).bind
    (vtkBezierSurfaceWidget.SetSource (some grid11))

/-- The attached example widget after a pointer-down that picked handle 1 and a
following `SetSource(null)`. -/
def detachedInDrag : Option vtkBezierSurfaceWidget :=
  (attached23.bind (deliver (pointerDown (1, 1) (0, 0)
    { Actor := some 2, PickPosition := (0, 1, 0) }))).bind
    (vtkBezierSurfaceWidget.SetSource none)

/-! ## Theorems -/

open vtkBezierSurfaceWidget

theorem forLoop_succ {σ : Type} (n : Nat) (body : Nat → σ → Option σ) (s : σ) :
    forLoop (n + 1) body s = (forLoop n body s).bind (body n) := rfl

theorem forLoop_congr {σ : Type} (n : Nat) (f g : Nat → σ → Option σ) (s : σ)
    (h : ∀ k, k < n → ∀ t, f k t = g k t) : forLoop n f s = forLoop n g s := by
  induction n with
  | zero => rfl
  | succ n ih =>
    rw [forLoop_succ, forLoop_succ, ih (fun k hk t => h k (Nat.lt_succ_of_lt hk) t)]
    cases forLoop n g s with
    | none => rfl
    | some t => exact h n (Nat.lt_succ_self n) t

theorem forLoop_add {σ : Type} (a c : Nat) (f : Nat → σ → Option σ) (s : σ) :
    forLoop (a + c) f s = (forLoop a f s).bind (forLoop c (fun j => f (a + j))) := by
  induction c with
  | zero =>
    cases h : forLoop a f s <;> simp [forLoop, h]
  | succ c ih =>
    rw [← Nat.add_assoc, forLoop_succ, ih]
    cases forLoop a f s with
    | none => rfl
    | some t => simp [forLoop_succ]

theorem forLoop_nest {σ : Type} (R C : Nat) (body : Nat → Nat → σ → Option σ) (s : σ) :
    forLoop R (fun i => forLoop C (body i)) s
      = forLoop (R * C) (fun n => body (n / C) (n % C)) s := by
  induction R with
  | zero => simp [forLoop]
  | succ R ih =>
    rw [forLoop_succ, ih, Nat.succ_mul, forLoop_add]
    congr 1
    funext t
    apply forLoop_congr
    intro j hj u
    have hC : 0 < C := by omega
    have h1 : (R * C + j) / C = R := by
      rw [Nat.add_comm, Nat.add_mul_div_right _ _ hC, Nat.div_eq_of_lt hj, Nat.zero_add]
    have h2 : (R * C + j) % C = j := by
      rw [Nat.add_comm, Nat.add_mul_mod_self_right, Nat.mod_eq_of_lt hj]
    simp only [h1, h2]

theorem construct_loop (src : vtkBezierSurfaceSource) (en : Int) (C base : Nat) (pl : List Nat)
    (slots0 : List (Option HandleInfo)) (n : Nat) (hn : n ≤ slots0.length) :
    forLoop n (fun k => ConstructBody src en (k / C) (k % C))
        { index := 0, slots := slots0, NextActor := base, PickList := pl }
      = some { index := n,
               slots := (List.range n).map (fun k => some (constructedHandle src en C base k))
                          ++ slots0.drop n,
               NextActor := base + n,
               PickList := pl ++ (List.range n).map (fun k => base + k) } := by
  induction n with
  | zero => simp [forLoop]
  | succ n ih =>
    have hlt : n < slots0.length := by omega
    rw [forLoop_succ, ih (by omega)]
    simp only [Option.some_bind, ConstructBody]
    have hlen : n < ((List.range n).map (fun k => some (constructedHandle src en C base k))
                          ++ slots0.drop n).length := by
      simp; omega
    rw [if_pos hlen]
    congr 1
    simp only [ConstructState.mk.injEq, true_and]
    refine ⟨?_, ?_⟩
    · rw [List.set_append]
      simp only [List.length_map, List.length_range, Nat.lt_irrefl, if_false, Nat.sub_self]
      rw [List.drop_eq_getElem_cons hlt, List.set_cons_zero]
      simp [List.range_succ, constructedHandle, HandleInfo.Init, HandleInfo.SetPosition,
        HandleInfo.SetProperty, HandleInfo.SetVisibility]
    · simp [List.range_succ, HandleInfo.Init, HandleInfo.SetPosition,
        HandleInfo.SetProperty, HandleInfo.SetVisibility, Nat.add_assoc]

theorem allHandles_map_some (l : List HandleInfo) : allHandles (l.map some) = some l := by
  induction l with
  | nil => rfl
  | cons a l ih => simp [allHandles, ih]

theorem resize_length {α : Type} (l : List α) (n : Nat) (v : α) : (resize l n v).length = n := by
  simp [resize]; omega

theorem ConstructHandles_eq (w w1 : vtkBezierSurfaceWidget) (ren : Nat)
    (src : vtkBezierSurfaceSource)
    (hR : GetRenderer w = some (w1, some ren)) (hS : w1.Source = some src)
    (hN : src.NumberOfControlPoints.1 * src.NumberOfControlPoints.2 ≤ INT_MAX) :
    ConstructHandles w = some (SizeHandles { w1 with
      HandleInfoList := (List.range (src.NumberOfControlPoints.1 * src.NumberOfControlPoints.2)).map
        (constructedHandle src w1.Enabled src.NumberOfControlPoints.2 w1.NextActor)
      NextActor := w1.NextActor + src.NumberOfControlPoints.1 * src.NumberOfControlPoints.2
      PickList := w1.PickList ++
        (List.range (src.NumberOfControlPoints.1 * src.NumberOfControlPoints.2)).map
          (fun k => w1.NextActor + k)
      PickFromList := true }) := by
  unfold ConstructHandles
  simp only [hR, hS, vtkBezierSurfaceSource.GetNumberOfControlPoints]
  rw [if_neg (Nat.not_lt.mpr hN), forLoop_nest,
    construct_loop src w1.Enabled _ w1.NextActor w1.PickList _ _
      (le_of_eq (resize_length _ _ _).symm)]
  simp only []
  have hd : List.drop (src.NumberOfControlPoints.1 * src.NumberOfControlPoints.2)
      (resize (List.map some w1.HandleInfoList)
        (src.NumberOfControlPoints.1 * src.NumberOfControlPoints.2) none) = [] := by
    apply List.drop_eq_nil_of_le
    rw [resize_length]
  rw [hd, List.append_nil]
  have hm : (List.range (src.NumberOfControlPoints.1 * src.NumberOfControlPoints.2)).map
      (fun k => some (constructedHandle src w1.Enabled src.NumberOfControlPoints.2 w1.NextActor k))
      = ((List.range (src.NumberOfControlPoints.1 * src.NumberOfControlPoints.2)).map
      (constructedHandle src w1.Enabled src.NumberOfControlPoints.2 w1.NextActor)).map some := by
    simp
  rw [hm, allHandles_map_some]

theorem GetRenderer_fst (w w1 : vtkBezierSurfaceWidget) (r : Option Nat)
    (h : GetRenderer w = some (w1, r)) :
    w1 = { w with CurrentRenderer := w1.CurrentRenderer } := by
  unfold GetRenderer at h
  split at h
  · cases h; rfl
  · split at h
    · cases h; rfl
    · split at h
      · cases h
      · cases h; rfl

theorem GetRenderer_found (w w1 : vtkBezierSurfaceWidget) (ren : Nat)
    (h : GetRenderer w = some (w1, some ren)) :
    GetRenderer w1 = some (w1, some ren) := by
  unfold GetRenderer at h
  split at h
  · next r hd => cases h; simp [GetRenderer, hd]
  · next hd =>
    split at h
    · next r hc => cases h; simp [GetRenderer, hd, hc]
    · split at h
      · cases h
      · next hc iren hi =>
        simp only [Option.some.injEq, Prod.mk.injEq] at h
        obtain ⟨h1, h2⟩ := h
        subst h1
        simp [GetRenderer, hd, h2]

theorem GetRenderer_stable (w w1 : vtkBezierSurfaceWidget) (ren : Nat)
    (h : GetRenderer w = some (w1, some ren)) :
    (∃ r, w1.DefaultRenderer = some r) ∨ (∃ r, w1.CurrentRenderer = some r) := by
  unfold GetRenderer at h
  split at h
  · next r hd => cases h; exact Or.inl ⟨_, hd⟩
  · split at h
    · next r hc => cases h; exact Or.inr ⟨_, hc⟩
    · split at h
      · cases h
      · simp only [Option.some.injEq, Prod.mk.injEq] at h
        obtain ⟨h1, h2⟩ := h
        subst h1
        exact Or.inr ⟨ren, h2⟩

theorem hasRenderer_some (w : vtkBezierSurfaceWidget) (h : hasRenderer w = true) :
    ∃ w1 ren, GetRenderer w = some (w1, some ren) := by
  unfold hasRenderer at h
  split at h
  · next w1 ren heq => exact ⟨w1, ren, heq⟩
  · cases h

theorem SetEnabled_on (w w1 : vtkBezierSurfaceWidget) (src : vtkBezierSurfaceSource)
    (iren : vtkRenderWindowInteractor) (ren : Nat)
    (hI : w.Interactor = some iren) (hS : w.Source = some src)
    (hR : GetRenderer w = some (w1, some ren)) (hE : w.Enabled ≠ 1)
    (hN : src.NumberOfControlPoints.1 * src.NumberOfControlPoints.2 ≤ INT_MAX) :
    SetEnabled 1 w = some { w1 with
      HandleInfoList := (List.range (src.NumberOfControlPoints.1 * src.NumberOfControlPoints.2)).map
        (fun n => { constructedHandle src w.Enabled src.NumberOfControlPoints.2 w.NextActor n with
                    Radius := 1 / 10, Visibility := 1 })
      NextActor := w.NextActor + src.NumberOfControlPoints.1 * src.NumberOfControlPoints.2
      PickList := w.PickList ++
        (List.range (src.NumberOfControlPoints.1 * src.NumberOfControlPoints.2)).map
          (fun k => w.NextActor + k)
      PickFromList := true
      Interactor := some { iren with Observers := iren.Observers ++
        [vtkCommand.MouseMoveEvent, vtkCommand.LeftButtonPressEvent,
         vtkCommand.LeftButtonReleaseEvent] }
      Enabled := 1 } := by
  have h1 := GetRenderer_fst w w1 _ hR
  have h2 := GetRenderer_found w w1 ren hR
  have hS1 : w1.Source = some src := by rw [h1]; exact hS
  have hI1 : w1.Interactor = some iren := by rw [h1]; exact hI
  have hE1 : w1.Enabled = w.Enabled := by rw [h1]
  have hNA : w1.NextActor = w.NextActor := by rw [h1]
  have hPL : w1.PickList = w.PickList := by rw [h1]
  unfold SetEnabled
  rw [if_neg hE]
  have hc : ¬ ((1 : Int) ≠ 0 ∧ ¬ (w.Interactor.isSome ∧ w.Source.isSome)) := by
    simp [hI, hS]
  rw [if_neg hc]
  simp only [ne_eq, one_ne_zero, not_false_eq_true, if_true, if_false]
  rw [ConstructHandles_eq w w1 ren src hR hS1 hN]
  simp only [SizeHandles, hI1, List.map_map]
  rcases GetRenderer_stable w w1 ren hR with ⟨r, hr⟩ | ⟨r, hr⟩
  · cases hg : w1.CPGridActor <;>
      simp [GetRenderer, hr, hI1, hE1, hNA, hPL, constructedHandle, HandleInfo.SetVisibility,
        HandleInfo.SetRadius, Function.comp_def]
  · cases hd : w1.DefaultRenderer <;> cases hg : w1.CPGridActor <;>
      simp [GetRenderer, hr, hI1, hE1, hNA, hPL, constructedHandle, HandleInfo.SetVisibility,
        HandleInfo.SetRadius, Function.comp_def]

theorem GetRenderer_congr (w v w1 : vtkBezierSurfaceWidget) (r : Option Nat)
    (h : GetRenderer w = some (w1, r))
    (hD : v.DefaultRenderer = w.DefaultRenderer) (hC : v.CurrentRenderer = w.CurrentRenderer)
    (hI : v.Interactor = w.Interactor) :
    GetRenderer v = some ({ v with CurrentRenderer := w1.CurrentRenderer }, r) := by
  cases v
  simp only at hD hC hI
  subst hD hC hI
  cases hd : w.DefaultRenderer with
  | some r0 =>
    simp only [GetRenderer, hd] at h
    cases h
    simp [GetRenderer, hd]
  | none =>
    cases hc : w.CurrentRenderer with
    | some r1 =>
      simp only [GetRenderer, hd, hc] at h
      cases h
      simp [GetRenderer, hd, hc]
    | none =>
      cases hi : w.Interactor with
      | none => simp [GetRenderer, hd, hc, hi] at h
      | some iren =>
        simp only [GetRenderer, hd, hc, hi] at h
        cases h
        simp [GetRenderer, hd, hc, hi]

theorem SetSource_attach (w : vtkBezierSurfaceWidget) (src : vtkBezierSurfaceSource)
    (iren : vtkRenderWindowInteractor)
    (hI : w.Interactor = some iren) (hR : hasRenderer w = true) (hE : w.Enabled ≠ 1)
    (hA : w.Source.map (fun s => s.addr) ≠ some src.addr)
    (hG : w.Source = none ∨ ∃ a, w.CPGridActor = some a)
    (hN : src.NumberOfControlPoints.1 * src.NumberOfControlPoints.2 ≤ INT_MAX) :
    ∃ w', SetSource (some src) w = some w' ∧ w'.Enabled = 1 ∧ w'.Source = some src ∧
      w'.HandleInfoList =
        (List.range (src.NumberOfControlPoints.1 * src.NumberOfControlPoints.2)).map
          (fun n => { constructedHandle src 0 src.NumberOfControlPoints.2 (w.NextActor + 1) n with
                      Radius := 1 / 10, Visibility := 1 }) ∧
      w'.PickList = w.PickList ++
        (List.range (src.NumberOfControlPoints.1 * src.NumberOfControlPoints.2)).map
          (fun k => w.NextActor + 1 + k) ∧
      w'.CurrHandleIndex = w.CurrHandleIndex ∧
      w'.Interactor = some { iren with Observers := iren.Observers ++
        [vtkCommand.MouseMoveEvent, vtkCommand.LeftButtonPressEvent,
         vtkCommand.LeftButtonReleaseEvent] } ∧
      (w.DefaultRenderer = none → ∃ r, w'.CurrentRenderer = some r) := by
  obtain ⟨w1, ren, hw1⟩ := hasRenderer_some w hR
  have hst := GetRenderer_stable w w1 ren hw1
  have hfound := GetRenderer_found w w1 ren hw1
  have hfst := GetRenderer_fst w w1 _ hw1
  have hD1 : w1.DefaultRenderer = w.DefaultRenderer := by rw [hfst]
  have hI1 : w1.Interactor = w.Interactor := by rw [hfst]
  clear hfst
  cases w
  simp only at hI hE hA hG hD1 hI1
  subst hI
  have hcr : w1.DefaultRenderer = none → ∃ r, w1.CurrentRenderer = some r := by
    intro h0
    rcases hst with ⟨r, hr⟩ | h
    · rw [h0] at hr
      cases hr
    · exact h
  rename_i Source CPGridActor CurrHandleIndex HandleInfoList LastPickPosition Enabled
    CurrentRenderer DefaultRenderer PickList PickFromList WorldToDisplay DisplayToWorld NextActor
  cases Source with
  | none =>
    have hg := GetRenderer_congr _
      { Source := some src, CPGridActor := some NextActor, CurrHandleIndex := CurrHandleIndex,
        HandleInfoList := HandleInfoList, LastPickPosition := LastPickPosition, Enabled := Enabled,
        Interactor := some iren, CurrentRenderer := CurrentRenderer,
        DefaultRenderer := DefaultRenderer, PickList := PickList, PickFromList := PickFromList,
        WorldToDisplay := WorldToDisplay, DisplayToWorld := DisplayToWorld,
        NextActor := NextActor + 1 }
      w1 _ hw1 rfl rfl rfl
    have key := SetEnabled_on _ _ src iren ren rfl rfl hg hE hN
    refine ⟨_, Eq.trans ?_ key, rfl, rfl, ?_, ?_, rfl, rfl, ?_⟩
    · simp only [SetSource, Option.map_none', Option.map_some', reduceCtorEq, if_false,
        Option.isSome_some, and_self, if_true]
    · rfl
    · rfl
    · intro h0
      exact hcr (hD1.trans h0)
  | some old =>
    rcases hG with hG | ⟨a, hG⟩
    · cases hG
    · subst hG
      have hg0 := GetRenderer_congr _
        { Source := some old, CPGridActor := none, CurrHandleIndex := CurrHandleIndex,
          HandleInfoList := HandleInfoList, LastPickPosition := LastPickPosition, Enabled := Enabled,
          Interactor := some iren, CurrentRenderer := CurrentRenderer,
          DefaultRenderer := DefaultRenderer, PickList := PickList, PickFromList := PickFromList,
          WorldToDisplay := WorldToDisplay, DisplayToWorld := DisplayToWorld,
          NextActor := NextActor }
        w1 _ hw1 rfl rfl rfl
      have hg := GetRenderer_congr w1
        { Source := some src, CPGridActor := some NextActor, CurrHandleIndex := CurrHandleIndex,
          HandleInfoList := [], LastPickPosition := LastPickPosition, Enabled := Enabled,
          Interactor := some iren, CurrentRenderer := w1.CurrentRenderer,
          DefaultRenderer := DefaultRenderer, PickList := PickList, PickFromList := PickFromList,
          WorldToDisplay := WorldToDisplay, DisplayToWorld := DisplayToWorld,
          NextActor := NextActor + 1 }
        w1 _ hfound hD1.symm rfl hI1.symm
      have key := SetEnabled_on _ _ src iren ren rfl rfl hg hE hN
      have hA' : ¬ (some old.addr = some src.addr) := by simpa using hA
      refine ⟨_, Eq.trans ?_ key, rfl, rfl, ?_, ?_, rfl, rfl, ?_⟩
      · simp only [SetSource, Option.map_some', hA', if_false, DestroyHandles, hg0,
          Option.isSome_some, and_self, if_true]
      · rfl
      · rfl
      · intro h0
        exact hcr (hD1.trans h0)

theorem attach_ready (w : vtkBezierSurfaceWidget) (src : vtkBezierSurfaceSource)
    (iren : vtkRenderWindowInteractor)
    (hI : w.Interactor = some iren) (hR : hasRenderer w = true)
    (hS : w.Source = none) (hE : w.Enabled = 0) (hD : w.DefaultRenderer = none)
    (hN : src.NumberOfControlPoints.1 * src.NumberOfControlPoints.2 ≤ INT_MAX) :
    ∃ w', SetSource (some src) w = some w' ∧ w'.Interactor.isSome = true ∧
      w'.CurrentRenderer.isSome = true ∧ w'.Source = some src ∧
      (w'.HandleInfoList.map (fun h => h.Actor)).Nodup ∧
      ∀ h ∈ w'.HandleInfoList, h.GetPosition = src.GetControlPoint h.xCPIndex h.yCPIndex := by
  obtain ⟨w', hw', -, hsrc, hl, -, -, hi, hc⟩ :=
    SetSource_attach w src iren hI hR (by simp [hE]) (by simp [hS]) (Or.inl hS) hN
  obtain ⟨r, hr⟩ := hc hD
  refine ⟨w', hw', by simp [hi], by simp [hr], hsrc, ?_, ?_⟩
  · rw [hl, List.map_map]
    apply List.Nodup.map _ (List.nodup_range _)
    intro a b hab
    simpa [constructedHandle] using hab
  · intro h hh
    rw [hl] at hh
    simp only [List.mem_map] at hh
    obtain ⟨n, -, rfl⟩ := hh
    rfl

/-- On a disabled widget that has an interactor and a renderer and nothing
attached, `SetSource` with a grid of R rows and C columns (R·C within `int`)
enables the widget and leaves exactly R·C handles; the handle at list index
i·C+j carries the indexes (i, j) and sits at control point (i, j); no two
handles carry the same indexes. -/
theorem attach_unattached_constructs_handles (w : vtkBezierSurfaceWidget)
    (src : vtkBezierSurfaceSource) (iren : vtkRenderWindowInteractor)
    (hI : w.Interactor = some iren) (hR : hasRenderer w = true)
    (hS : w.Source = none) (hE : w.Enabled = 0)
    (hN : src.NumberOfControlPoints.1 * src.NumberOfControlPoints.2 ≤ INT_MAX) :
    ∃ w', SetSource (some src) w = some w' ∧ w'.Enabled = 1 ∧ w'.Source = some src ∧
      w'.HandleInfoList.length = src.NumberOfControlPoints.1 * src.NumberOfControlPoints.2 ∧
      (∀ i j : Nat, i < src.NumberOfControlPoints.1 → j < src.NumberOfControlPoints.2 →
        ∃ h, w'.HandleInfoList.get? (i * src.NumberOfControlPoints.2 + j) = some h ∧
          h.xCPIndex = (i : Int) ∧ h.yCPIndex = (j : Int) ∧
          h.GetPosition = src.GetControlPoint (i : Int) (j : Int)) ∧
      (∀ (a b : Nat) (ha hb : HandleInfo), w'.HandleInfoList.get? a = some ha →
        w'.HandleInfoList.get? b = some hb → ha.xCPIndex = hb.xCPIndex →
        ha.yCPIndex = hb.yCPIndex → a = b) := by
  obtain ⟨w', hw', hen, hsrc, hl, -, -, -, -⟩ :=
    SetSource_attach w src iren hI hR (by simp [hE]) (by simp [hS]) (Or.inl hS) hN
  refine ⟨w', hw', hen, hsrc, by simp [hl], ?_, ?_⟩
  · intro i j hi hj
    have hC : 0 < src.NumberOfControlPoints.2 := by omega
    have hlt : i * src.NumberOfControlPoints.2 + j
        < src.NumberOfControlPoints.1 * src.NumberOfControlPoints.2 := by
      calc i * src.NumberOfControlPoints.2 + j
          < i * src.NumberOfControlPoints.2 + src.NumberOfControlPoints.2 := by omega
        _ = (i + 1) * src.NumberOfControlPoints.2 := by rw [Nat.succ_mul]
        _ ≤ src.NumberOfControlPoints.1 * src.NumberOfControlPoints.2 :=
            Nat.mul_le_mul_right _ hi
    have h1 : (i * src.NumberOfControlPoints.2 + j) / src.NumberOfControlPoints.2 = i := by
      rw [Nat.add_comm, Nat.add_mul_div_right _ _ hC, Nat.div_eq_of_lt hj, Nat.zero_add]
    have h2 : (i * src.NumberOfControlPoints.2 + j) % src.NumberOfControlPoints.2 = j := by
      rw [Nat.add_comm, Nat.add_mul_mod_self_right, Nat.mod_eq_of_lt hj]
    refine ⟨{ constructedHandle src 0 src.NumberOfControlPoints.2 (w.NextActor + 1)
                (i * src.NumberOfControlPoints.2 + j) with Radius := 1 / 10, Visibility := 1 },
      ?_, ?_, ?_, ?_⟩
    · rw [hl, List.get?_eq_getElem?, List.getElem?_map, List.getElem?_range hlt]
      rfl
    · simp only [constructedHandle, h1]
    · simp only [constructedHandle, h2]
    · simp only [constructedHandle, HandleInfo.GetPosition, h1, h2]
  · intro a b ha hb hga hgb hx hy
    rw [hl, List.get?_eq_getElem?, List.getElem?_map] at hga hgb
    have hC : 0 < src.NumberOfControlPoints.2 ∨ src.NumberOfControlPoints.2 = 0 := by omega
    cases hra : (List.range (src.NumberOfControlPoints.1 * src.NumberOfControlPoints.2))[a]? with
    | none => simp [hra] at hga
    | some a' =>
      cases hrb : (List.range (src.NumberOfControlPoints.1 * src.NumberOfControlPoints.2))[b]? with
      | none => simp [hrb] at hgb
      | some b' =>
        have haa : a' = a := by
          have := List.getElem?_eq_some_iff.mp hra
          obtain ⟨hlt, he⟩ := this
          simpa using he.symm
        have hbb : b' = b := by
          have := List.getElem?_eq_some_iff.mp hrb
          obtain ⟨hlt, he⟩ := this
          simpa using he.symm
        subst haa hbb
        simp only [hra, hrb, Option.map_some', Option.some.injEq] at hga hgb
        subst hga hgb
        simp only [constructedHandle, Nat.cast_inj] at hx hy
        have hx' : a' / src.NumberOfControlPoints.2 = b' / src.NumberOfControlPoints.2 := by
          exact_mod_cast hx
        have hy' : a' % src.NumberOfControlPoints.2 = b' % src.NumberOfControlPoints.2 := by
          exact_mod_cast hy
        rw [← Nat.div_add_mod a' src.NumberOfControlPoints.2,
          ← Nat.div_add_mod b' src.NumberOfControlPoints.2, hx', hy']

/-- The example widget and the 2 × 3 grid: six handles. -/
theorem attach_unattached_constructs_handles_example :
    ∃ w', SetSource (some grid23) exampleWidget = some w' ∧ w'.Enabled = 1 ∧
      w'.Source = some grid23 ∧ w'.HandleInfoList.length = 2 * 3 ∧
      (∀ i j : Nat, i < 2 → j < 3 →
        ∃ h, w'.HandleInfoList.get? (i * 3 + j) = some h ∧
          h.xCPIndex = (i : Int) ∧ h.yCPIndex = (j : Int) ∧
          h.GetPosition = grid23.GetControlPoint (i : Int) (j : Int)) ∧
      (∀ (a b : Nat) (ha hb : HandleInfo), w'.HandleInfoList.get? a = some ha →
        w'.HandleInfoList.get? b = some hb → ha.xCPIndex = hb.xCPIndex →
        ha.yCPIndex = hb.yCPIndex → a = b) :=
  attach_unattached_constructs_handles exampleWidget grid23 exampleInteractor rfl rfl rfl rfl
    (by decide)

/-- C1, evaluated: the example widget with the 1 × 1 grid attached has an
interactor and a renderer and is enabled; `SetSource` with the grid of 2 rows
and 3 columns makes that grid the source but leaves the handle list empty, not
of length 2·3: `SetEnabled(1)` returns at `Enabled == enabled` before
`ConstructHandles`. -/
theorem C1_attach_on_enabled_widget_builds_nothing :
    (SetSource (some grid11) exampleWidget).map
        (fun w => (w.Interactor.isSome, hasRenderer w, w.Enabled, w.HandleInfoList.length))
      = some (true, true, 1, 1) ∧
    ((SetSource (some grid11) exampleWidget).bind (SetSource (some grid23))).map
        (fun w => (w.Source.map (fun s => (s.addr, s.NumberOfControlPoints)),
          w.Interactor.isSome, hasRenderer w, w.Enabled, w.HandleInfoList.length))
      = some (some (1, (2, 3)), true, true, 1, 0) := by
  decide

/-- C5, counterexample: `SetSource(null)` on the enabled example widget (a grid
attached, six handles) leaves no source, no handle and a disabled widget; and
`SetSource` with the grid of 0 × 4 cells on the unattached example widget
attaches it, enables the widget and subscribes to the three pointer events. -/
theorem C5_null_or_empty_counterexample :
    attached23.map (fun w => (w.Source.isSome, w.HandleInfoList.length, w.Enabled))
      = some (true, 6, 1) ∧
    (attached23.bind (SetSource none)).map
        (fun w => (w.Source.isSome, w.HandleInfoList.length, w.Enabled))
      = some (false, 0, 0) ∧
    (exampleWidget.Source.isSome, exampleWidget.Enabled,
        exampleWidget.Interactor.map (fun i => i.Observers))
      = (false, 0, some []) ∧
    (SetSource (some grid04) exampleWidget).map
        (fun w => (w.Source.map (fun s => s.addr), w.Enabled,
          w.Interactor.map (fun i => i.Observers)))
      = some (some 3, 1, some [vtkCommand.MouseMoveEvent, vtkCommand.LeftButtonPressEvent,
          vtkCommand.LeftButtonReleaseEvent]) := by
  decide

theorem SetSource_enabled_reattach (w : vtkBezierSurfaceWidget)
    (old src : vtkBezierSurfaceSource) (iren : vtkRenderWindowInteractor) (a : Nat)
    (hI : w.Interactor = some iren) (hR : hasRenderer w = true)
    (hS : w.Source = some old) (hA : old.addr ≠ src.addr) (hG : w.CPGridActor = some a)
    (hE : w.Enabled = 1) :
    ∃ w', SetSource (some src) w = some w' ∧ w'.Source = some src ∧ w'.Enabled = 1 ∧
      w'.HandleInfoList = [] := by
  obtain ⟨w1, ren, hw1⟩ := hasRenderer_some w hR
  have hA' : ¬ (some old.addr = some src.addr) := by simpa using hA
  cases w
  simp only at hI hS hG hE
  subst hI hS hG hE
  rename_i CurrHandleIndex HandleInfoList LastPickPosition CurrentRenderer DefaultRenderer
    PickList PickFromList WorldToDisplay DisplayToWorld NextActor
  have hg0 := GetRenderer_congr _
    { Source := some old, CPGridActor := none, CurrHandleIndex := CurrHandleIndex,
      HandleInfoList := HandleInfoList, LastPickPosition := LastPickPosition, Enabled := 1,
      Interactor := some iren, CurrentRenderer := CurrentRenderer,
      DefaultRenderer := DefaultRenderer, PickList := PickList, PickFromList := PickFromList,
      WorldToDisplay := WorldToDisplay, DisplayToWorld := DisplayToWorld,
      NextActor := NextActor }
    w1 _ hw1 rfl rfl rfl
  refine ⟨{ Source := some src, CPGridActor := some NextActor,
            CurrHandleIndex := CurrHandleIndex, HandleInfoList := [],
            LastPickPosition := LastPickPosition, Enabled := 1, Interactor := some iren,
            CurrentRenderer := w1.CurrentRenderer, DefaultRenderer := DefaultRenderer,
            PickList := PickList, PickFromList := PickFromList,
            WorldToDisplay := WorldToDisplay, DisplayToWorld := DisplayToWorld,
            NextActor := NextActor + 1 }, ?_, rfl, rfl, rfl⟩
  simp only [SetSource, Option.map_some', hA', if_false, DestroyHandles, hg0,
    Option.isSome_some, and_self, if_true, SetEnabled]

/-- C5, amended: `SetSource(null)` changes nothing when no grid is attached. On a
widget that has an interactor and a grid attached (with its wire-frame actor)
it detaches the grid: no source, an empty handle list, a disabled widget. A grid
with zero cells is not ignored either: on a widget that has an interactor and a
renderer and either has nothing attached and is disabled, or has another grid
attached (with its wire-frame actor), it becomes the source and the widget ends
enabled with an empty handle list. -/
theorem C5_null_or_empty_amended :
    (∀ w : vtkBezierSurfaceWidget, w.Source = none → SetSource none w = some w) ∧
    (∀ (w : vtkBezierSurfaceWidget) (old : vtkBezierSurfaceSource)
        (iren : vtkRenderWindowInteractor) (a : Nat),
      w.Source = some old → w.CPGridActor = some a → w.Interactor = some iren →
      ∃ w', SetSource none w = some w' ∧ w'.Source = none ∧ w'.HandleInfoList = [] ∧
        w'.Enabled = 0) ∧
    (∀ (w : vtkBezierSurfaceWidget) (src : vtkBezierSurfaceSource)
        (iren : vtkRenderWindowInteractor),
      w.Interactor = some iren → hasRenderer w = true →
      src.NumberOfControlPoints.1 * src.NumberOfControlPoints.2 = 0 →
      ((w.Source = none ∧ w.Enabled = 0) ∨
        (∃ old a, w.Source = some old ∧ old.addr ≠ src.addr ∧ w.CPGridActor = some a)) →
      ∃ w', SetSource (some src) w = some w' ∧ w'.Source = some src ∧ w'.Enabled = 1 ∧
        w'.HandleInfoList = []) := by
  refine ⟨?_, ?_, ?_⟩
  · intro w hS
    simp [SetSource, hS]
  · intro w old iren a hS hG hI
    cases w
    simp only at hS hG hI
    subst hS hG hI
    rename_i CurrHandleIndex HandleInfoList LastPickPosition Enabled CurrentRenderer
      DefaultRenderer PickList PickFromList WorldToDisplay DisplayToWorld NextActor
    cases DefaultRenderer <;> cases CurrentRenderer <;> by_cases hE : Enabled = 0 <;>
      simp [SetSource, DestroyHandles, GetRenderer, SetEnabled, hE]
  · intro w src iren hI hR hZ hcase
    have hN : src.NumberOfControlPoints.1 * src.NumberOfControlPoints.2 ≤ INT_MAX := by
      rw [hZ]
      exact Nat.zero_le _
    rcases hcase with ⟨hS, hE⟩ | ⟨old, a, hS, hA, hG⟩
    · obtain ⟨w', hw', hen, hsrc, hl, -, -, -, -⟩ :=
        SetSource_attach w src iren hI hR (by simp [hE]) (by simp [hS]) (Or.inl hS) hN
      exact ⟨w', hw', hsrc, hen, by simp [hl, hZ]⟩
    · by_cases hE : w.Enabled = 1
      · obtain ⟨w', hw', hsrc, hen, hl⟩ :=
          SetSource_enabled_reattach w old src iren a hI hR hS hA hG hE
        exact ⟨w', hw', hsrc, hen, hl⟩
      · obtain ⟨w', hw', hen, hsrc, hl, -, -, -, -⟩ :=
          SetSource_attach w src iren hI hR hE (by simpa [hS] using hA) (Or.inr ⟨a, hG⟩) hN
        exact ⟨w', hw', hsrc, hen, by simp [hl, hZ]⟩

/-- C5, amended, at the example widget (nothing attached), at the attached
example widget (null grid, and the grid of 0 × 4 cells in place of the attached
2 × 3 grid), and at the example widget with the grid of 0 × 4 cells. -/
theorem C5_null_or_empty_amended_witness :
    SetSource none exampleWidget = some exampleWidget ∧
    (∃ w', SetSource none attachedWidget = some w' ∧ w'.Source = none ∧
      w'.HandleInfoList = [] ∧ w'.Enabled = 0) ∧
    (∃ w', SetSource (some grid04) exampleWidget = some w' ∧ w'.Source = some grid04 ∧
      w'.Enabled = 1 ∧ w'.HandleInfoList = []) ∧
    (∃ w', SetSource (some grid04) attachedWidget = some w' ∧ w'.Source = some grid04 ∧
      w'.Enabled = 1 ∧ w'.HandleInfoList = []) :=
  ⟨C5_null_or_empty_amended.1 exampleWidget rfl,
   C5_null_or_empty_amended.2.1 attachedWidget grid23 attachedInteractor 0 rfl rfl rfl,
   C5_null_or_empty_amended.2.2 exampleWidget grid04 exampleInteractor rfl rfl rfl
     (Or.inl ⟨rfl, rfl⟩),
   C5_null_or_empty_amended.2.2 attachedWidget grid04 attachedInteractor rfl rfl rfl
     (Or.inr ⟨grid23, 0, rfl, by decide, rfl⟩)⟩

/-- C6: on a disabled widget with no grid attached, or with no interactor,
`SetEnabled(1)` changes nothing: the widget stays disabled, no handle is
created and no observer is added. -/
theorem C6_enable_refused (w : vtkBezierSurfaceWidget) (hE : w.Enabled = 0)
    (hM : w.Source = none ∨ w.Interactor = none) :
    SetEnabled 1 w = some w ∧
    ∀ w', SetEnabled 1 w = some w' →
      w'.Enabled = 0 ∧ w'.HandleInfoList = w.HandleInfoList ∧ w'.Interactor = w.Interactor := by
  have h : SetEnabled 1 w = some w := by
    rcases hM with hS | hI
    · simp [SetEnabled, hE, hS]
    · simp [SetEnabled, hE, hI]
  refine ⟨h, ?_⟩
  intro w' hw'
  rw [h] at hw'
  cases hw'
  exact ⟨hE, rfl, rfl⟩

/-- C6 at the example widget, which has an interactor but no grid, and at a
widget that has a grid but no interactor. -/
theorem C6_enable_refused_witness :
    (exampleWidget.Enabled = 0 ∧ exampleWidget.Source.isSome = false ∧
      exampleWidget.Interactor.isSome = true ∧
      SetEnabled 1 exampleWidget = some exampleWidget) ∧
    (unwiredWidget.Enabled = 0 ∧ unwiredWidget.Source.isSome = true ∧
      unwiredWidget.Interactor.isSome = false ∧
      SetEnabled 1 unwiredWidget = some unwiredWidget) :=
  ⟨⟨rfl, rfl, rfl, (C6_enable_refused exampleWidget rfl (Or.inl rfl)).1⟩,
   ⟨rfl, rfl, rfl, (C6_enable_refused unwiredWidget rfl (Or.inr rfl)).1⟩⟩

/-- C7, counterexample: on the attached example widget, in the middle of a drag
of handle 1, `SetEnabled(0)` hides the six handles and clears `Enabled`, but the
interactor still lists the widget's callback on the three pointer events. -/
theorem C7_disable_counterexample :
    ((attached23.bind (deliver (pointerDown (1, 1) (0, 0)
          { Actor := some 2, PickPosition := (0, 1, 0) }))).bind (SetEnabled 0)).map
        (fun w => (w.Enabled, w.CurrHandleIndex, w.HandleInfoList.map (fun h => h.Visibility),
          w.Interactor.map (fun i => i.Observers)))
      = some (0, 1, [0, 0, 0, 0, 0, 0],
          some [vtkCommand.MouseMoveEvent, vtkCommand.LeftButtonPressEvent,
            vtkCommand.LeftButtonReleaseEvent]) := by
  decide

/-- C7, amended: `SetEnabled(0)` on an enabled widget, whatever the current
handle, clears `Enabled` and hides every handle of the (otherwise unchanged)
handle list; the interactor, with its observers, and the current handle index
are left as they were. -/
theorem C7_disable_amended (w : vtkBezierSurfaceWidget) (iren : vtkRenderWindowInteractor)
    (hE : w.Enabled ≠ 0) (hI : w.Interactor = some iren) :
    ∃ w', SetEnabled 0 w = some w' ∧ w'.Enabled = 0 ∧
      w'.HandleInfoList = w.HandleInfoList.map (fun h => h.SetVisibility 0) ∧
      (∀ h ∈ w'.HandleInfoList, h.Visibility = 0) ∧
      w'.Interactor = some iren ∧ w'.CurrHandleIndex = w.CurrHandleIndex := by
  cases w
  simp only at hE hI
  subst hI
  rename_i Source CPGridActor CurrHandleIndex HandleInfoList LastPickPosition Enabled
    CurrentRenderer DefaultRenderer PickList PickFromList WorldToDisplay DisplayToWorld NextActor
  cases CPGridActor <;> cases DefaultRenderer <;> cases CurrentRenderer <;>
    simp [SetEnabled, GetRenderer, hE, HandleInfo.SetVisibility]

/-- C7, amended, at the attached example widget. -/
theorem C7_disable_amended_witness :
    attachedWidget.Enabled ≠ 0 ∧
    ∃ w', SetEnabled 0 attachedWidget = some w' ∧ w'.Enabled = 0 ∧
      w'.HandleInfoList = attachedWidget.HandleInfoList.map (fun h => h.SetVisibility 0) ∧
      (∀ h ∈ w'.HandleInfoList, h.Visibility = 0) ∧
      w'.Interactor = some attachedInteractor ∧
      w'.CurrHandleIndex = attachedWidget.CurrHandleIndex :=
  ⟨by decide, C7_disable_amended attachedWidget attachedInteractor (by decide) rfl⟩

theorem findPicked_none (a : Nat) (l : List HandleInfo) (n : Nat)
    (h : ∀ info ∈ l, info.Actor ≠ a) : findPicked a l n = none := by
  induction l generalizing n with
  | nil => rfl
  | cons x l ih =>
    have hx : ¬ (a = x.Actor) := fun he => h x (List.mem_cons_self _ _) he.symm
    simp only [findPicked, if_neg hx]
    exact ih (n + 1) (fun info hi => h info (List.mem_cons_of_mem _ hi))

/-- C8, evaluated: in the state `reattached` (handles on actors 3..8, the stale
actor 1 still in the pick list) a pointer-down picks handle 0, which turns red;
a second pointer-down picks actor 1, which is no handle: there is no current
handle afterwards, yet handle 0 still carries the red copy, not the shared
property. -/
theorem C8_non_handle_pick_keeps_highlight :
    reattached.map (fun w => (w.HandleInfoList.map (fun h => h.Actor), w.PickList))
      = some ([3, 4, 5, 6, 7, 8], [1, 3, 4, 5, 6, 7, 8]) ∧
    (reattached.bind (run [pointerDown (1, 1) (0, 0) { Actor := some 3, PickPosition := (0, 0, 0) }])).map
        (fun w => (w.CurrHandleIndex, w.HandleInfoList.map (fun h => h.Property)))
      = some (0, [PropertyRef.redCopy, PropertyRef.shared, PropertyRef.shared,
          PropertyRef.shared, PropertyRef.shared, PropertyRef.shared]) ∧
    (reattached.bind (run [pointerDown (1, 1) (0, 0) { Actor := some 3, PickPosition := (0, 0, 0) },
          pointerDown (9, 9) (1, 1) { Actor := some 1, PickPosition := (5, 5, 5) }])).map
        (fun w => (w.CurrHandleIndex, w.HandleInfoList.map (fun h => h.Property)))
      = some (-1, [PropertyRef.redCopy, PropertyRef.shared, PropertyRef.shared,
          PropertyRef.shared, PropertyRef.shared, PropertyRef.shared]) := by
  decide

/-- C9: with no current handle, a pointer-down at any position that picks
nothing, or picks an actor that is no handle's, ends with no current handle and
with every handle's property as it was. -/
theorem C9_miss_keeps_idle (w : vtkBezierSurfaceWidget) (iren : vtkRenderWindowInteractor)
    (pos last : Int × Int) (pick : PickResult)
    (hI : w.Interactor = some iren) (hcur : w.CurrHandleIndex = -1)
    (hmiss : ∀ a, pick.Actor = some a → ∀ info ∈ w.HandleInfoList, info.Actor ≠ a) :
    ∃ w', deliver (pointerDown pos last pick) w = some w' ∧ w'.CurrHandleIndex = -1 ∧
      w'.HandleInfoList.length = w.HandleInfoList.length ∧
      w'.HandleInfoList.map (fun h => h.Property) = w.HandleInfoList.map (fun h => h.Property) := by
  cases hC : w.CurrentRenderer with
  | none =>
    refine ⟨SizeHandles (SetEventInformation (pointerDown pos last pick) w), ?_, hcur, ?_, ?_⟩
    · simp [deliver, pointerDown, ProcessEvents, OnLeftButtonDown, SetEventInformation,
        SizeHandles, hI, hC]
    · simp [SizeHandles, SetEventInformation]
    · simp [SizeHandles, SetEventInformation, HandleInfo.SetRadius, Function.comp_def]
  | some ren =>
    refine ⟨{ SizeHandles (SetEventInformation (pointerDown pos last pick) w) with
              LastPickPosition := pick.PickPosition }, ?_, hcur, ?_, ?_⟩
    · cases hp : pick.Actor with
      | none =>
        simp [deliver, pointerDown, ProcessEvents, OnLeftButtonDown, SetEventInformation,
          SizeHandles, hI, hC, hp, UnSelectCurrentHandle, hcur]
      | some a =>
        have hf : findPicked a (w.HandleInfoList.map (fun info => info.SetRadius (1 / 10))) 0
            = none := by
          apply findPicked_none
          intro info hi
          simp only [List.mem_map] at hi
          obtain ⟨i0, hi0, rfl⟩ := hi
          exact hmiss a hp i0 hi0
        simp only [one_div] at hf
        simp [deliver, pointerDown, ProcessEvents, OnLeftButtonDown, SetEventInformation,
          SizeHandles, hI, hC, hp, hf, hcur]
    · simp [SizeHandles, SetEventInformation]
    · simp [SizeHandles, SetEventInformation, HandleInfo.SetRadius, Function.comp_def]

/-- C9 at the attached example widget, for a pointer-down that picks an actor
(99) that is no handle's. -/
theorem C9_miss_keeps_idle_witness :
    attachedWidget.CurrHandleIndex = -1 ∧
    ∃ w', deliver (pointerDown (40, 2) (1, 1) { Actor := some 99, PickPosition := (1, 2, 3) })
        attachedWidget = some w' ∧ w'.CurrHandleIndex = -1 ∧
      w'.HandleInfoList.length = attachedWidget.HandleInfoList.length ∧
      w'.HandleInfoList.map (fun h => h.Property)
        = attachedWidget.HandleInfoList.map (fun h => h.Property) :=
  ⟨rfl, C9_miss_keeps_idle attachedWidget attachedInteractor (40, 2) (1, 1)
    { Actor := some 99, PickPosition := (1, 2, 3) } rfl rfl (by decide)⟩

/-- C10, evaluated: from the attached and enabled example widget, a pointer-down
that picks handle 0 followed by a pointer-down that picks handle 1 leaves
handle 1 current and both handle 0 and handle 1 with the red copy. -/
theorem C10_two_handles_highlighted :
    attached23.map (fun w => (w.Enabled, w.CurrHandleIndex,
        w.HandleInfoList.map (fun h => (h.Actor, h.Property))))
      = some (1, -1, [(1, PropertyRef.shared), (2, PropertyRef.shared), (3, PropertyRef.shared),
          (4, PropertyRef.shared), (5, PropertyRef.shared), (6, PropertyRef.shared)]) ∧
    (attached23.bind (run [pointerDown (1, 1) (0, 0) { Actor := some 1, PickPosition := (0, 0, 0) },
          pointerDown (2, 2) (1, 1) { Actor := some 2, PickPosition := (0, 1, 0) }])).map
        (fun w => (w.CurrHandleIndex, w.HandleInfoList.map (fun h => h.Property)))
      = some (1, [PropertyRef.redCopy, PropertyRef.redCopy, PropertyRef.shared,
          PropertyRef.shared, PropertyRef.shared, PropertyRef.shared]) := by
  decide

theorem OnMouseMove_source (w w' : vtkBezierSurfaceWidget) (h : OnMouseMove w = some w') :
    w'.Source = w.Source := by
  unfold OnMouseMove at h
  simp only [SizeHandles] at h
  split at h
  · cases h; rfl
  · split at h
    · cases h
    · split at h
      · cases h
      · split at h
        · cases h
        · cases h; rfl

/-- C11: `OnMouseMove` never changes the source, hence no grid control point.
With no current handle it returns with every handle position and the current
index as they were. With current handle `k` (an index of the handle list, the
interactor and the current renderer present) it returns with handle `k` at its
old position plus `worldPoint(now) - worldPoint(previousEvent)`, every other
handle position and the current index as they were. -/
theorem C11_move_frame :
    (∀ w w' : vtkBezierSurfaceWidget, OnMouseMove w = some w' →
      w'.Source = w.Source ∧
      ∀ src src', w.Source = some src → w'.Source = some src' →
        ∀ i j : Int, src'.GetControlPoint i j = src.GetControlPoint i j) ∧
    (∀ w : vtkBezierSurfaceWidget, w.CurrHandleIndex < 0 →
      ∃ w', OnMouseMove w = some w' ∧ w'.Source = w.Source ∧
        w'.HandleInfoList.map (fun h => h.GetPosition)
          = w.HandleInfoList.map (fun h => h.GetPosition) ∧
        w'.CurrHandleIndex = w.CurrHandleIndex) ∧
    (∀ (w : vtkBezierSurfaceWidget) (iren : vtkRenderWindowInteractor) (ren k : Nat)
        (h : HandleInfo),
      w.CurrHandleIndex = (k : Int) → w.Interactor = some iren →
      w.CurrentRenderer = some ren → w.HandleInfoList.get? k = some h →
      ∃ w', OnMouseMove w = some w' ∧ w'.Source = w.Source ∧
        w'.CurrHandleIndex = (k : Int) ∧
        w'.HandleInfoList.length = w.HandleInfoList.length ∧
        (∃ h', w'.HandleInfoList.get? k = some h' ∧
          h'.GetPosition = h.GetPosition
            + moveDelta w w.LastPickPosition (iren.EventPosition, iren.LastEventPosition)) ∧
        ∀ j : Nat, j ≠ k →
          (w'.HandleInfoList.get? j).map (fun h => h.GetPosition)
            = (w.HandleInfoList.get? j).map (fun h => h.GetPosition)) := by
  refine ⟨?_, ?_, ?_⟩
  · intro w w' hw
    have hs := OnMouseMove_source w w' hw
    refine ⟨hs, ?_⟩
    intro src src' h1 h2 i j
    rw [hs, h1] at h2
    cases h2
    rfl
  · intro w hcur
    refine ⟨SizeHandles w, ?_, rfl, ?_, rfl⟩
    · simp [OnMouseMove, SizeHandles, hcur]
    · simp [SizeHandles, HandleInfo.SetRadius, HandleInfo.GetPosition, Function.comp_def]
  · intro w iren ren k h hcur hI hC hk
    have hk' : (w.HandleInfoList.map (fun info => info.SetRadius (1 / 10)))[k]?
        = some (h.SetRadius (1 / 10)) := by
      simp [List.get?_eq_getElem?] at hk ⊢
      exact ⟨h, hk, rfl⟩
    have hd : OnMouseMove w
        = some { w with
            HandleInfoList := (w.HandleInfoList.map (fun info => info.SetRadius (1 / 10))).modify
              (fun info => info.SetPosition (h.GetPosition
                + moveDelta w w.LastPickPosition (iren.EventPosition, iren.LastEventPosition)))
              k } := by
      simp only [OnMouseMove, SizeHandles, hI, hC, hcur, Int.toNat_ofNat,
        List.get?_eq_getElem?, hk']
      rw [if_neg (by omega)]
      simp only [Option.some.injEq]
      congr 2
    refine ⟨_, hd, rfl, hcur, by simp, ⟨(h.SetRadius (1 / 10)).SetPosition (h.GetPosition
        + moveDelta w w.LastPickPosition (iren.EventPosition, iren.LastEventPosition)), ?_, rfl⟩,
      ?_⟩
    · simp only [List.get?_eq_getElem?, List.getElem?_modify_eq, hk']
      rfl
    · intro j hj
      simp only [List.get?_eq_getElem?]
      rw [List.getElem?_modify_ne _ _ (Ne.symm hj), List.getElem?_map]
      cases w.HandleInfoList[j]? <;> rfl

/-- C11 at the attached example widget (no current handle) and at the same
widget after a pointer-down at (1, 1) picked handle 1 (previous event at
(0, 0)): the move delta is (1, 1, 0). -/
theorem C11_move_frame_witness :
    (SizeHandles attachedWidget).Source = attachedWidget.Source ∧
    (∃ w', OnMouseMove attachedWidget = some w' ∧ w'.Source = attachedWidget.Source ∧
      w'.HandleInfoList.map (fun h => h.GetPosition)
        = attachedWidget.HandleInfoList.map (fun h => h.GetPosition) ∧
      w'.CurrHandleIndex = attachedWidget.CurrHandleIndex) ∧
    (∃ w', OnMouseMove draggingWidget = some w' ∧ w'.Source = draggingWidget.Source ∧
      w'.CurrHandleIndex = ((1 : Nat) : Int) ∧
      w'.HandleInfoList.length = draggingWidget.HandleInfoList.length ∧
      (∃ h', w'.HandleInfoList.get? 1 = some h' ∧
        h'.GetPosition = selectedHandle01.GetPosition
          + moveDelta draggingWidget draggingWidget.LastPickPosition
              (draggingInteractor.EventPosition, draggingInteractor.LastEventPosition)) ∧
      ∀ j : Nat, j ≠ 1 →
        (w'.HandleInfoList.get? j).map (fun h => h.GetPosition)
          = (draggingWidget.HandleInfoList.get? j).map (fun h => h.GetPosition)) :=
  ⟨(C11_move_frame.1 attachedWidget (SizeHandles attachedWidget) rfl).1,
   C11_move_frame.2.1 attachedWidget (by decide),
   C11_move_frame.2.2 draggingWidget draggingInteractor 7 1 selectedHandle01 rfl rfl rfl rfl⟩

/-- C12, evaluated: from the attached and enabled example widget, a pointer-down
that picks handle 1 followed by `SetSource(grid11)`, or by `SetSource(null)`,
leaves `CurrHandleIndex = 1` with an empty handle list; the next pointer-move,
pointer-up or missing pointer-down then has no defined result (the handle list
is indexed at 1). -/
theorem C12_stale_index_after_reattach :
    reattachedInDrag.map (fun w => (w.CurrHandleIndex, w.HandleInfoList.length, w.Enabled))
      = some (1, 0, 1) ∧
    detachedInDrag.map (fun w => (w.CurrHandleIndex, w.HandleInfoList.length, w.Enabled))
      = some (1, 0, 0) ∧
    (reattachedInDrag.bind (deliver (pointerMove ((2, 2), (1, 1))))).isSome = false ∧
    (reattachedInDrag.bind (deliver (pointerUp (2, 2) (1, 1)))).isSome = false ∧
    (reattachedInDrag.bind (deliver (pointerDown (2, 2) (1, 1)
        { Actor := none, PickPosition := (0, 0, 0) }))).isSome = false ∧
    (detachedInDrag.bind (deliver (pointerMove ((2, 2), (1, 1))))).isSome = false := by
  decide

end BezierWidget
